import Mathlib

/-!
Shallow embedding of `src/main.py` (class `LangChainApifyAssistant`), the
query orchestrator of the AI-Query-Based-Image-Finder integration script.

Modelling conventions:
* The two remote collaborators are abstracted as functions.  The
  text-completion service (`self.llm.invoke(prompt).content`) is an
  `llm : String → Except UpstreamError String`; the image-search actor
  (actor call + dataset iteration, lines 164-171) is a
  `fetch : String → Nat → Except UpstreamError (List ImageSearchResult)`.
  A Python exception raised by a collaborator is the `.error` case and
  propagates through every caller via `match`, exactly as an uncaught
  Python exception would.
* Python dicts with a known key set are records whose fields are `Option`:
  `none` models an absent key, so `d.get(k, default)` is `field.getD default`
  and dict truthiness (`bool(d)`, `not d`) is "some field is present".
* Python strings are Lean `String`; `str.upper` is `pyUpper` below and
  `str.title` is `pyTitle` below (both exact on the ASCII data involved).
-/

namespace ImageFinder

/-- The error raised by either collaborator (spec §7: network, auth,
malformed response, … — the orchestrator never inspects it). -/
structure UpstreamError where
  msg : String
deriving Repr, DecidableEq

/-- One image object of the actor's output (`images` list items, read at
lines 113-116 of `src/main.py`); every key may be absent. -/
structure ImageItem where
  title : Option String
  display_link : Option String
  link : Option String
  width : Option Nat
  height : Option Nat
  perspective_query : Option String
deriving Repr, DecidableEq

/-- One search-perspective object (`search_perspectives` items, read at
line 109 of `src/main.py`); every key may be absent. -/
structure Perspective where
  perspective_type : Option String
  query : Option String
  images_found : Option Nat
deriving Repr, DecidableEq

/-- The first record of the actor's dataset (`images_data` dict); every key
may be absent.  `⟨none, none, none, none⟩` is the empty dict `{}`. -/
structure ImageSearchResult where
  images : Option (List ImageItem)
  search_perspectives : Option (List Perspective)
  total_results : Option Nat
  agent_response : Option String
deriving Repr, DecidableEq

/-- The empty dict `{}` (no keys present). -/
def emptyRecord : ImageSearchResult :=
  { images := none, search_perspectives := none, total_results := none,
    agent_response := none }

/-- Python dict falsiness: `not d` is true exactly when no key is present,
so `bool(images_data)` (line 223) is the negation of this. -/
def ImageSearchResult.isEmptyRecord (d : ImageSearchResult) : Bool :=
  d.images.isNone && d.search_perspectives.isNone &&
    d.total_results.isNone && d.agent_response.isNone

/-- The dict returned by `process_query` (lines 217-224 of `src/main.py`). -/
structure ProcessedResult where
  query : String
  text_response : String
  images : List ImageItem
  total_images : Nat
  perspectives : List Perspective
  image_aware_response : Bool
deriving Repr, DecidableEq

/-- Python `str.title()` on a list of characters: a letter that follows a
letter is lowercased, a letter that follows a non-letter (or starts the
string) is uppercased, non-letters are kept.  The `Bool` argument records
whether the previous character was a letter. -/
def pyTitleGo : Bool → List Char → List Char
  | _, [] => []
  | prevAlpha, c :: cs =>
    (if c.isAlpha then (if prevAlpha then c.toLower else c.toUpper) else c)
      :: pyTitleGo c.isAlpha cs

/-- Python `str.title()` (used on `perspective_type` at line 109). -/
def pyTitle (s : String) : String :=
  ⟨pyTitleGo false s.toList⟩

/-- Python `str.upper()`: uppercase every character (exact on the ASCII
data involved; Lean's built-in `String.toUpper` is avoided only because its
recursion does not reduce inside the kernel). -/
def pyUpper (s : String) : String :=
  ⟨s.toList.map Char.toUpper⟩

/-- Python's `needle in hay` substring test, on character lists: scan every
suffix of `hay` for one that starts with `needle`. -/
def hasSubstr (needle : List Char) (hay : List Char) : Bool :=
  match hay with
  | [] => needle.isEmpty
  | c :: rest => needle.isPrefixOf (c :: rest) || hasSubstr needle rest

/-- Python's `needle in hay` on strings (the `"YES" in …` test, line 67). -/
def pyContains (hay needle : String) : Bool :=
  hasSubstr needle.toList hay.toList

/-- The fixed classification prompt template (lines 60-65 of `src/main.py`,
an f-string inside triple quotes, hence the leading and trailing newline). -/
def classification_prompt (query : String) : String :=
  "\nDoes this query need visual images to answer properly?\nQuery: \"" ++
    query ++ "\"\n\nAnswer only \"YES\" or \"NO\"\n"

/-- Embeds `should_search_images` (lines 41-67 of `src/main.py`): send the
classification prompt, then test `"YES" in response.content.upper()`. -/
def should_search_images (llm : String → Except UpstreamError String)
    (query : String) : Except UpstreamError Bool :=
  match llm (classification_prompt query) with
  | .error e => .error e
  | .ok content => .ok (pyContains (pyUpper content) "YES")

/-- Embeds `search_images` (lines 137-172 of `src/main.py`): run the actor with
`{query, maxResults}`, read the dataset, return `results[0] if results
else {}`.  Python's default `max_results = 10` is passed explicitly by
callers below. -/
def search_images (fetch : String → Nat → Except UpstreamError (List ImageSearchResult))
    (query : String) (max_results : Nat) : Except UpstreamError ImageSearchResult :=
  match fetch query max_results with
  | .error e => .error e
  | .ok results => .ok (results.headD emptyRecord)

/-- The plain (no-image) prompt of line 96: `f"Answer this query
comprehensively: '{query}'"`. -/
def plain_prompt (query : String) : String :=
  "Answer this query comprehensively: \x27" ++ query ++ "\x27"

/-- One perspective line of the composite prompt (line 109):
`f"• {p.get('perspective_type', 'Unknown').title()}: '{p.get('query', 'N/A')}'
({p.get('images_found', 0)} images)\n"`. -/
def render_perspective_line (p : Perspective) : String :=
  "• " ++ pyTitle (p.perspective_type.getD "Unknown") ++ ": \x27" ++
    p.query.getD "N/A" ++ "\x27 (" ++ toString (p.images_found.getD 0) ++
    " images)\n"

/-- Render of an optional integer field inside an f-string: the number's
decimal form, or the `'N/A'` default when the key is absent (line 116). -/
def natFieldStr (v : Option Nat) : String :=
  match v with
  | some n => toString n
  | none => "N/A"

/-- One image entry of the composite prompt, for 0-based index `i`
(lines 113-116 of `src/main.py`). -/
def render_image_entry (i : Nat) (img : ImageItem) : String :=
  toString (i + 1) ++ ". Title: " ++ img.title.getD "Untitled" ++ "\n" ++
    "   Source: " ++ img.display_link.getD "N/A" ++ "\n" ++
    "   Perspective: " ++ img.perspective_query.getD "N/A" ++ "\n" ++
    "   Size: " ++ natFieldStr img.width ++ "x" ++ natFieldStr img.height ++
    "\n\n"

/-- The image entries actually emitted by the loop
`for i, img in enumerate(images[:5])` (line 112): only the first 5 images
ever produce an entry. -/
def image_detail_entries (images : List ImageItem) : List String :=
  (images.take 5).enum.map (fun p => render_image_entry p.1 p.2)

/-- The `image_context` string built at lines 103-116 of `src/main.py`. -/
def image_context_str (images : List ImageItem) (perspectives : List Perspective) : String :=
  "\nI found " ++ toString images.length ++ " relevant images from " ++
    toString perspectives.length ++
    " different search perspectives:\n\nSEARCH PERSPECTIVES USED:\n" ++
    String.join (perspectives.map render_perspective_line) ++
    "\nIMAGE DETAILS FOUND:\n" ++
    String.join (image_detail_entries images)

/-- The composite (image-aware) prompt of lines 118-132 of `src/main.py`. -/
def image_prompt (query : String) (ctx : String) : String :=
  "\nAnswer this query comprehensively: \"" ++ query ++
    "\"\n\nIMPORTANT: I have found relevant images that provide visual context for this topic. Use this image information to enhance your response:\n\n" ++
    ctx ++
    "\n\nGuidelines:\n1. Reference the specific images found and how they relate to your explanation\n2. Mention the different perspectives covered by the image search\n3. Explain how the visual content complements your text response\n4. Provide a comprehensive answer that combines your knowledge with the visual evidence found\n\nProvide a detailed response that integrates both textual explanation and references to the visual content discovered.\n"

/-- The prompt chosen by `get_text_response_with_images` (lines 94-132):
the plain prompt when `not images_data or not images_data.get('images')`
(dict absent (`None`), empty dict, `images` key absent, or `images` an
empty list), otherwise the composite prompt. -/
def build_prompt (query : String) (images_data : Option ImageSearchResult) : String :=
  match images_data with
  | none => plain_prompt query
  | some d =>
    if d.isEmptyRecord || (d.images.getD []).isEmpty then
      plain_prompt query
    else
      image_prompt query
        (image_context_str (d.images.getD []) (d.search_perspectives.getD []))

/-- Embeds `get_text_response_with_images` (lines 69-135 of `src/main.py`): build
the prompt, invoke the LLM, return `response.content`.  Python's default
`images_data = None` is passed explicitly by callers below. -/
def get_text_response_with_images (llm : String → Except UpstreamError String)
    (query : String) (images_data : Option ImageSearchResult) :
    Except UpstreamError String :=
  llm (build_prompt query images_data)

/-- Embeds `process_query` (lines 174-224 of `src/main.py`): classify, then search
only when needed (`images_data` stays `{}` otherwise), then compose, then
assemble the result dict with `.get(…, default)` reads and
`bool(images_data)`. -/
def process_query (llm : String → Except UpstreamError String)
    (fetch : String → Nat → Except UpstreamError (List ImageSearchResult))
    (query : String) : Except UpstreamError ProcessedResult :=
  match should_search_images llm query with
  | .error e => .error e
  | .ok needs_images =>
    match (match needs_images with
           | true => search_images fetch query 10
           | false => .ok emptyRecord) with
    | .error e => .error e
    | .ok images_data =>
      match get_text_response_with_images llm query (some images_data) with
      | .error e => .error e
      | .ok text_response =>
        .ok { query := query
              text_response := text_response
              images := images_data.images.getD []
              total_images := images_data.total_results.getD 0
              perspectives := images_data.search_perspectives.getD []
              image_aware_response := !images_data.isEmptyRecord }

/-- One observable collaborator call: an LLM invocation with its prompt
(`self.llm.invoke(prompt)`) or an image-search actor run with its input
(`actor(…).call(run_input={query, maxResults})`). -/
inductive CallEvent where
  | llmCall (prompt : String)
  | actorCall (query : String) (maxResults : Nat)
deriving Repr, DecidableEq

/-- The function `should_search_images`, instrumented with the collaborator calls it
performs (one LLM call with the classification prompt). -/
def should_search_imagesT (llm : String → Except UpstreamError String)
    (query : String) : List CallEvent × Except UpstreamError Bool :=
  ([CallEvent.llmCall (classification_prompt query)], should_search_images llm query)

/-- The function `search_images`, instrumented with its one actor call. -/
def search_imagesT (fetch : String → Nat → Except UpstreamError (List ImageSearchResult))
    (query : String) (max_results : Nat) :
    List CallEvent × Except UpstreamError ImageSearchResult :=
  ([CallEvent.actorCall query max_results], search_images fetch query max_results)

/-- The function `get_text_response_with_images`, instrumented with its one LLM call. -/
def get_text_response_with_imagesT (llm : String → Except UpstreamError String)
    (query : String) (images_data : Option ImageSearchResult) :
    List CallEvent × Except UpstreamError String :=
  ([CallEvent.llmCall (build_prompt query images_data)],
   get_text_response_with_images llm query images_data)

/-- The function `process_query`, instrumented with the chronological list of
collaborator calls it performs.  Each step's calls happen before the next
step is entered; an uncaught error stops the run, so later steps add no
calls.  The second component is the same value `process_query` returns. -/
def process_queryT (llm : String → Except UpstreamError String)
    (fetch : String → Nat → Except UpstreamError (List ImageSearchResult))
    (query : String) : List CallEvent × Except UpstreamError ProcessedResult :=
  match should_search_imagesT llm query with
  | (t1, .error e) => (t1, .error e)
  | (t1, .ok needs_images) =>
    match (match needs_images with
           | true => search_imagesT fetch query 10
           | false => ([], .ok emptyRecord)) with
    | (t2, .error e) => (t1 ++ t2, .error e)
    | (t2, .ok images_data) =>
      match get_text_response_with_imagesT llm query (some images_data) with
      | (t3, .error e) => (t1 ++ t2 ++ t3, .error e)
      | (t3, .ok text_response) =>
        (t1 ++ t2 ++ t3,
         .ok { query := query
               text_response := text_response
               images := images_data.images.getD []
               total_images := images_data.total_results.getD 0
               perspectives := images_data.search_perspectives.getD []
               image_aware_response := !images_data.isEmptyRecord })

/-! ## Concrete collaborators and records used to exercise the model -/

/-- A text-completion service that answers every prompt with `resp`. -/
def llmConst (resp : String) : String → Except UpstreamError String :=
  fun _ => .ok resp

/-- A text-completion service that fails on every prompt. -/
def llmErr (e : UpstreamError) : String → Except UpstreamError String :=
  fun _ => .error e

/-- An image-search actor whose run always yields the dataset `rs`. -/
def fetchConst (rs : List ImageSearchResult) :
    String → Nat → Except UpstreamError (List ImageSearchResult) :=
  fun _ _ => .ok rs

/-- An image object with every key absent. -/
def blankImage : ImageItem :=
  { title := none, display_link := none, link := none, width := none,
    height := none, perspective_query := none }

/-- A perspective object with every key absent. -/
def blankPerspective : Perspective :=
  { perspective_type := none, query := none, images_found := none }

/-- A fully populated image object. -/
def sampleImage : ImageItem :=
  { title := some "Dashboard", display_link := some "example.com",
    link := some "https://example.com/a.jpg", width := some 640,
    height := some 480, perspective_query := some "interior" }

/-- Two fully populated perspective objects. -/
def samplePerspectives : List Perspective :=
  [{ perspective_type := some "overview", query := some "tesla model y interior",
     images_found := some 4 },
   { perspective_type := some "detail", query := some "dashboard",
     images_found := some 3 }]

/-- A search record with one image object, two perspectives and
`total_results = 7` (the counts deliberately disagree with the length of
`images`). -/
def sampleRecord : ImageSearchResult :=
  { images := some [sampleImage], search_perspectives := some samplePerspectives,
    total_results := some 7, agent_response := none }

/-- A non-empty search record whose only key is `agent_response`. -/
def agentOnlyRecord : ImageSearchResult :=
  { images := none, search_perspectives := none, total_results := none,
    agent_response := some "searched two angles" }

/-- The result `process_query` assembles when the classification step says
no images are needed and the compose step answers "No.". -/
def resultNo : ProcessedResult :=
  { query := "q", text_response := "No.", images := [], total_images := 0,
    perspectives := [], image_aware_response := false }

/-! ## Helper lemmas -/

theorem hasSubstr_iff_infix (n h : List Char) :
    hasSubstr n h = true ↔ n <:+: h := by
  induction h with
  | nil =>
    simp [hasSubstr, List.infix_nil, List.isEmpty_iff]
  | cons c rest ih =>
    simp only [hasSubstr, Bool.or_eq_true, List.isPrefixOf_iff_prefix, ih,
      List.infix_cons_iff]

theorem pyContains_iff_infix (hay needle : String) :
    pyContains hay needle = true ↔ needle.toList <:+: hay.toList := by
  simpa [pyContains] using hasSubstr_iff_infix needle.toList hay.toList

theorem isEmptyRecord_iff (d : ImageSearchResult) :
    d.isEmptyRecord = true ↔ d = emptyRecord := by
  cases d with
  | mk i s t a =>
    simp [ImageSearchResult.isEmptyRecord, emptyRecord, Option.isNone_iff_eq_none,
      ImageSearchResult.mk.injEq, and_assoc]

theorem emptyRecord_isEmptyRecord : emptyRecord.isEmptyRecord = true := rfl

theorem process_queryT_snd (llm : String → Except UpstreamError String)
    (fetch : String → Nat → Except UpstreamError (List ImageSearchResult))
    (query : String) :
    (process_queryT llm fetch query).2 = process_query llm fetch query := by
  unfold process_queryT process_query should_search_imagesT search_imagesT
    get_text_response_with_imagesT
  cases should_search_images llm query with
  | error e => rfl
  | ok needs_images =>
    cases needs_images with
    | false =>
      dsimp only
      cases get_text_response_with_images llm query (some emptyRecord) <;> rfl
    | true =>
      dsimp only
      cases search_images fetch query 10 with
      | error e => rfl
      | ok d =>
        dsimp only
        cases get_text_response_with_images llm query (some d) <;> rfl

theorem should_search_images_error
    {llm : String → Except UpstreamError String} {query : String} {e : UpstreamError}
    (h : llm (classification_prompt query) = .error e) :
    should_search_images llm query = .error e := by
  unfold should_search_images
  rw [h]

theorem should_search_images_ok
    {llm : String → Except UpstreamError String} {query content : String}
    (h : llm (classification_prompt query) = .ok content) :
    should_search_images llm query = .ok (pyContains (pyUpper content) "YES") := by
  unfold should_search_images
  rw [h]

theorem process_query_classify_error
    {llm : String → Except UpstreamError String}
    {fetch : String → Nat → Except UpstreamError (List ImageSearchResult)}
    {query : String} {e : UpstreamError}
    (h : should_search_images llm query = .error e) :
    process_query llm fetch query = .error e := by
  unfold process_query
  rw [h]

theorem process_query_false_ok
    {llm : String → Except UpstreamError String}
    {fetch : String → Nat → Except UpstreamError (List ImageSearchResult)}
    {query t : String}
    (hc : should_search_images llm query = .ok false)
    (ht : llm (build_prompt query (some emptyRecord)) = .ok t) :
    process_query llm fetch query =
      .ok { query := query, text_response := t, images := [], total_images := 0,
            perspectives := [], image_aware_response := false } := by
  unfold process_query
  rw [hc]
  dsimp only
  unfold get_text_response_with_images
  rw [ht]
  rfl

theorem process_query_false_error
    {llm : String → Except UpstreamError String}
    {fetch : String → Nat → Except UpstreamError (List ImageSearchResult)}
    {query : String} {e : UpstreamError}
    (hc : should_search_images llm query = .ok false)
    (ht : llm (build_prompt query (some emptyRecord)) = .error e) :
    process_query llm fetch query = .error e := by
  unfold process_query
  rw [hc]
  dsimp only
  unfold get_text_response_with_images
  rw [ht]

theorem process_query_search_error
    {llm : String → Except UpstreamError String}
    {fetch : String → Nat → Except UpstreamError (List ImageSearchResult)}
    {query : String} {e : UpstreamError}
    (hc : should_search_images llm query = .ok true)
    (hs : search_images fetch query 10 = .error e) :
    process_query llm fetch query = .error e := by
  unfold process_query
  rw [hc]
  dsimp only
  rw [hs]

theorem process_query_true_ok
    {llm : String → Except UpstreamError String}
    {fetch : String → Nat → Except UpstreamError (List ImageSearchResult)}
    {query t : String} {d : ImageSearchResult}
    (hc : should_search_images llm query = .ok true)
    (hs : search_images fetch query 10 = .ok d)
    (ht : llm (build_prompt query (some d)) = .ok t) :
    process_query llm fetch query =
      .ok { query := query, text_response := t, images := d.images.getD [],
            total_images := d.total_results.getD 0,
            perspectives := d.search_perspectives.getD [],
            image_aware_response := !d.isEmptyRecord } := by
  unfold process_query
  rw [hc]
  dsimp only
  rw [hs]
  dsimp only
  unfold get_text_response_with_images
  rw [ht]

theorem process_query_compose_error
    {llm : String → Except UpstreamError String}
    {fetch : String → Nat → Except UpstreamError (List ImageSearchResult)}
    {query : String} {d : ImageSearchResult} {e : UpstreamError}
    (hc : should_search_images llm query = .ok true)
    (hs : search_images fetch query 10 = .ok d)
    (ht : llm (build_prompt query (some d)) = .error e) :
    process_query llm fetch query = .error e := by
  unfold process_query
  rw [hc]
  dsimp only
  rw [hs]
  dsimp only
  unfold get_text_response_with_images
  rw [ht]

theorem process_query_ok_inv
    {llm : String → Except UpstreamError String}
    {fetch : String → Nat → Except UpstreamError (List ImageSearchResult)}
    {query : String} {r : ProcessedResult}
    (h : process_query llm fetch query = .ok r) :
    (∃ t, should_search_images llm query = .ok false ∧
      llm (build_prompt query (some emptyRecord)) = .ok t ∧
      r = { query := query, text_response := t, images := [], total_images := 0,
            perspectives := [], image_aware_response := false }) ∨
    (∃ d t, should_search_images llm query = .ok true ∧
      search_images fetch query 10 = .ok d ∧
      llm (build_prompt query (some d)) = .ok t ∧
      r = { query := query, text_response := t, images := d.images.getD [],
            total_images := d.total_results.getD 0,
            perspectives := d.search_perspectives.getD [],
            image_aware_response := !d.isEmptyRecord }) := by
  unfold process_query at h
  cases hc : should_search_images llm query with
  | error e => rw [hc] at h; exact absurd h (by simp)
  | ok needs_images =>
    rw [hc] at h
    cases needs_images with
    | false =>
      dsimp only at h
      unfold get_text_response_with_images at h
      cases ht : llm (build_prompt query (some emptyRecord)) with
      | error e => rw [ht] at h; exact absurd h (by simp)
      | ok t =>
        rw [ht] at h
        dsimp only at h
        injection h with h'
        exact Or.inl ⟨t, rfl, rfl, h'.symm⟩
    | true =>
      dsimp only at h
      cases hs : search_images fetch query 10 with
      | error e => rw [hs] at h; exact absurd h (by simp)
      | ok d =>
        rw [hs] at h
        dsimp only at h
        unfold get_text_response_with_images at h
        cases ht : llm (build_prompt query (some d)) with
        | error e => rw [ht] at h; exact absurd h (by simp)
        | ok t =>
          rw [ht] at h
          dsimp only at h
          injection h with h'
          exact Or.inr ⟨d, t, rfl, rfl, ht, h'.symm⟩

/-! ## Claims -/

/-- Claim C2: for every response text returned by the text-completion
service, the classification returns true iff the uppercased response text
contains "YES" as a substring; in particular it returns true for a response
"Yes, absolutely" and false for a response "No.". -/
theorem C2_classification_yes_substring (resp query : String) :
    (should_search_images (llmConst resp) query = .ok true ↔
      "YES".toList <:+: (pyUpper resp).toList) ∧
    should_search_images (llmConst "Yes, absolutely") query = .ok true ∧
    should_search_images (llmConst "No.") query = .ok false := by
  have key : should_search_images (llmConst resp) query
      = .ok (pyContains (pyUpper resp) "YES") := rfl
  have key1 : should_search_images (llmConst "Yes, absolutely") query
      = .ok (pyContains (pyUpper "Yes, absolutely") "YES") := rfl
  have key2 : should_search_images (llmConst "No.") query
      = .ok (pyContains (pyUpper "No.") "YES") := rfl
  refine ⟨?_, by rw [key1]; simp only [Except.ok.injEq]; decide,
    by rw [key2]; simp only [Except.ok.injEq]; decide⟩
  rw [key]
  simp only [Except.ok.injEq]
  exact pyContains_iff_infix (pyUpper resp) "YES"

/-- Claim C4: the composite prompt contains `min n 5` image entries for `n`
images — hence at most 5, and exactly 5 whenever `n = 12` (or any
`n ≥ 5`). -/
theorem C4_at_most_five_image_entries (images : List ImageItem) :
    (image_detail_entries images).length = min images.length 5 ∧
    (image_detail_entries images).length ≤ 5 ∧
    (images.length = 12 → (image_detail_entries images).length = 5) := by
  have hlen : (image_detail_entries images).length = min images.length 5 := by
    rw [image_detail_entries, List.length_map, List.enum_length, List.length_take]
    exact min_comm 5 images.length
  refine ⟨hlen, ?_, fun h12 => ?_⟩
  · rw [hlen]
    exact min_le_right _ _
  · rw [hlen, h12]
    decide

/-- Witness for C4 at a concrete list of 12 images. -/
theorem C4_witness :
    (image_detail_entries (List.replicate 12 blankImage)).length = 5 :=
  (C4_at_most_five_image_entries (List.replicate 12 blankImage)).2.2 (by decide)

/-- Claim C5: with `images_data` absent (`None`), the empty dict `{}`, or a
record whose `images` key is absent or an empty list, the prompt sent to
the text-completion service is exactly
`"Answer this query comprehensively: '<query>'"`. -/
theorem C5_plain_prompt_byte_for_byte (query : String)
    (llm : String → Except UpstreamError String) :
    build_prompt query none =
      "Answer this query comprehensively: \x27" ++ query ++ "\x27" ∧
    build_prompt query (some emptyRecord) =
      "Answer this query comprehensively: \x27" ++ query ++ "\x27" ∧
    (∀ d : ImageSearchResult, d.images = none ∨ d.images = some [] →
      build_prompt query (some d) =
        "Answer this query comprehensively: \x27" ++ query ++ "\x27") ∧
    get_text_response_with_images llm query none =
      llm ("Answer this query comprehensively: \x27" ++ query ++ "\x27") := by
  refine ⟨rfl, rfl, ?_, rfl⟩
  intro d hd
  have himg : (d.images.getD []).isEmpty = true := by
    rcases hd with h | h <;> simp [h]
  simp [build_prompt, himg, plain_prompt]

/-- Witness for C5 at a record that has a key but no `images`. -/
theorem C5_witness :
    build_prompt "q" (some agentOnlyRecord) =
      "Answer this query comprehensively: \x27" ++ "q" ++ "\x27" :=
  (C5_plain_prompt_byte_for_byte "q" (llmConst "x")).2.2.1 agentOnlyRecord
    (Or.inl rfl)

/-- Claim C6: `search_images` returns the first record of the run's output
dataset, and the empty record `{}` (all fields absent) when the dataset has
no items; composing with that empty record takes the plain-text prompt
path. -/
theorem C6_empty_dataset_gives_empty_record
    (fetch : String → Nat → Except UpstreamError (List ImageSearchResult))
    (query : String) (mr : Nat) :
    (fetch query mr = .ok [] → search_images fetch query mr = .ok emptyRecord) ∧
    (∀ r rs, fetch query mr = .ok (r :: rs) →
      search_images fetch query mr = .ok r) ∧
    emptyRecord.images = none ∧ emptyRecord.search_perspectives = none ∧
    emptyRecord.total_results = none ∧ emptyRecord.agent_response = none ∧
    (∀ q2 : String, build_prompt q2 (some emptyRecord) =
      "Answer this query comprehensively: \x27" ++ q2 ++ "\x27") := by
  refine ⟨fun h => ?_, fun r rs h => ?_, rfl, rfl, rfl, rfl, fun q2 => rfl⟩
  · unfold search_images
    rw [h]
    rfl
  · unfold search_images
    rw [h]
    rfl

/-- Witness for C6 on an empty and on a one-record dataset. -/
theorem C6_witness :
    search_images (fetchConst []) "q" 10 = .ok emptyRecord ∧
    search_images (fetchConst [sampleRecord]) "q" 10 = .ok sampleRecord :=
  ⟨(C6_empty_dataset_gives_empty_record (fetchConst []) "q" 10).1 rfl,
   (C6_empty_dataset_gives_empty_record (fetchConst [sampleRecord]) "q" 10).2.1
     sampleRecord [] rfl⟩

/-- Claim C7: the compose step never fails on missing fields: an image with
every key absent renders with the literal placeholders "Untitled" and
"N/A", a perspective with every key absent renders as
"• Unknown: 'N/A' (0 images)", and the full composite prompt is still
produced for such records. -/
theorem C7_placeholders_for_missing_fields (i : Nat) (query : String) :
    render_image_entry i blankImage =
      toString (i + 1) ++
        ". Title: Untitled\n   Source: N/A\n   Perspective: N/A\n   Size: N/AxN/A\n\n" ∧
    render_perspective_line blankPerspective =
      "• Unknown: \x27N/A\x27 (0 images)\n" ∧
    build_prompt query
        (some { images := some [blankImage],
                search_perspectives := some [blankPerspective],
                total_results := none, agent_response := none }) =
      image_prompt query
        ("\nI found 1 relevant images from 1 different search perspectives:\n\nSEARCH PERSPECTIVES USED:\n• Unknown: \x27N/A\x27 (0 images)\n\nIMAGE DETAILS FOUND:\n1. Title: Untitled\n   Source: N/A\n   Perspective: N/A\n   Size: N/AxN/A\n\n") := by
  refine ⟨?_, rfl, rfl⟩
  simp only [render_image_entry, blankImage, natFieldStr, Option.getD_none,
    String.append_assoc]
  rfl

/-- Claim C1: for a `ProcessedResult` returned by `process_query`,
`image_aware_response` is true iff the classification step returned true
and the search step returned a non-empty `ImageSearchResult`; and whenever
`image_aware_response` is false, `images` and `perspectives` are empty and
`total_images` is 0 (in particular when classification returns false). -/
theorem C1_image_aware_invariant
    (llm : String → Except UpstreamError String)
    (fetch : String → Nat → Except UpstreamError (List ImageSearchResult))
    (query : String) (r : ProcessedResult)
    (h : process_query llm fetch query = .ok r) :
    (r.image_aware_response = true ↔
      (should_search_images llm query = .ok true ∧
        ∃ d, search_images fetch query 10 = .ok d ∧ d.isEmptyRecord = false)) ∧
    (r.image_aware_response = false →
      r.images = [] ∧ r.perspectives = [] ∧ r.total_images = 0) := by
  rcases process_query_ok_inv h with ⟨t, hc, ht, hr⟩ | ⟨d, t, hc, hs, ht, hr⟩
  · subst hr
    constructor
    · constructor
      · intro hab
        simp at hab
      · rintro ⟨hct, -⟩
        rw [hc] at hct
        simp at hct
    · intro _
      exact ⟨rfl, rfl, rfl⟩
  · subst hr
    constructor
    · constructor
      · intro hab
        refine ⟨hc, d, hs, ?_⟩
        simpa using hab
      · rintro ⟨-, d', hs', hne⟩
        rw [hs] at hs'
        injection hs' with hd
        subst hd
        simpa using hne
    · intro hfalse
      have hemp : d.isEmptyRecord = true := by simpa using hfalse
      have hd := (isEmptyRecord_iff d).mp hemp
      subst hd
      exact ⟨rfl, rfl, rfl⟩

/-- Witness for C1 on a run whose classification answers "No.". -/
theorem C1_witness :
    (resultNo.image_aware_response = true ↔
      (should_search_images (llmConst "No.") "q" = .ok true ∧
        ∃ d, search_images (fetchConst [sampleRecord]) "q" 10 = .ok d ∧
          d.isEmptyRecord = false)) ∧
    (resultNo.image_aware_response = false →
      resultNo.images = [] ∧ resultNo.perspectives = [] ∧
        resultNo.total_images = 0) :=
  C1_image_aware_invariant (llmConst "No.") (fetchConst [sampleRecord]) "q"
    resultNo rfl

/-- Claim C3: when classification returns true and the search step returns
a non-empty record, the assembled `ProcessedResult` mirrors the record's
`images`, `search_perspectives` and `total_results` fields exactly, with
`image_aware_response = true`. -/
theorem C3_result_mirrors_search_record
    (llm : String → Except UpstreamError String)
    (fetch : String → Nat → Except UpstreamError (List ImageSearchResult))
    (query t : String) (d : ImageSearchResult)
    (imgs : List ImageItem) (ps : List Perspective) (n : Nat)
    (hc : should_search_images llm query = .ok true)
    (hs : search_images fetch query 10 = .ok d)
    (hi : d.images = some imgs)
    (hp : d.search_perspectives = some ps)
    (hn : d.total_results = some n)
    (ht : llm (build_prompt query (some d)) = .ok t) :
    process_query llm fetch query =
      .ok { query := query, text_response := t, images := imgs,
            total_images := n, perspectives := ps,
            image_aware_response := true } := by
  rw [process_query_true_ok hc hs ht]
  simp [ImageSearchResult.isEmptyRecord, hi, hp, hn]

/-- Witness for C3: a record with `total_results = 7`, two perspectives and
a single image object yields `total_images = 7` and two perspectives. -/
theorem C3_witness :
    process_query (llmConst "YES") (fetchConst [sampleRecord]) "hello" =
      .ok { query := "hello", text_response := "YES", images := [sampleImage],
            total_images := 7, perspectives := samplePerspectives,
            image_aware_response := true } :=
  C3_result_mirrors_search_record (llmConst "YES") (fetchConst [sampleRecord])
    "hello" "YES" sampleRecord [sampleImage] samplePerspectives 7
    (by rw [show should_search_images (llmConst "YES") "hello"
          = .ok (pyContains (pyUpper "YES") "YES") from rfl]
        simp only [Except.ok.injEq]
        decide)
    rfl rfl rfl rfl rfl

theorem process_queryT_fst (llm : String → Except UpstreamError String)
    (fetch : String → Nat → Except UpstreamError (List ImageSearchResult))
    (query : String) :
    (process_queryT llm fetch query).1 =
      CallEvent.llmCall (classification_prompt query) ::
        (match should_search_images llm query with
         | .error _ => []
         | .ok false => [CallEvent.llmCall (build_prompt query (some emptyRecord))]
         | .ok true =>
           CallEvent.actorCall query 10 ::
             (match search_images fetch query 10 with
              | .error _ => []
              | .ok d => [CallEvent.llmCall (build_prompt query (some d))])) := by
  unfold process_queryT should_search_imagesT search_imagesT
    get_text_response_with_imagesT
  cases should_search_images llm query with
  | error e => rfl
  | ok needs_images =>
    cases needs_images with
    | false =>
      dsimp only
      cases get_text_response_with_images llm query (some emptyRecord) <;> rfl
    | true =>
      dsimp only
      cases search_images fetch query 10 with
      | error e => rfl
      | ok d =>
        dsimp only
        cases get_text_response_with_images llm query (some d) <;> rfl

/-- Claim C8: a `process_query` run performs exactly the linear call
sequence classify → (only if the classification returned true) search →
compose: the first collaborator call is always the classification LLM call,
an actor call occurs only in runs whose classification returned true (and
then immediately after it, before the single compose call), and the
instrumented run returns exactly what `process_query` returns. -/
theorem C8_strictly_sequential (llm : String → Except UpstreamError String)
    (fetch : String → Nat → Except UpstreamError (List ImageSearchResult))
    (query : String) :
    ((process_queryT llm fetch query).1 =
      CallEvent.llmCall (classification_prompt query) ::
        (match should_search_images llm query with
         | .error _ => []
         | .ok false => [CallEvent.llmCall (build_prompt query (some emptyRecord))]
         | .ok true =>
           CallEvent.actorCall query 10 ::
             (match search_images fetch query 10 with
              | .error _ => []
              | .ok d => [CallEvent.llmCall (build_prompt query (some d))]))) ∧
    (∀ s n, CallEvent.actorCall s n ∈ (process_queryT llm fetch query).1 →
      should_search_images llm query = .ok true) ∧
    (process_queryT llm fetch query).2 = process_query llm fetch query := by
  refine ⟨process_queryT_fst llm fetch query, ?_,
    process_queryT_snd llm fetch query⟩
  intro s n hmem
  rw [process_queryT_fst] at hmem
  cases hc : should_search_images llm query with
  | error e =>
    rw [hc] at hmem
    simp at hmem
  | ok needs_images =>
    cases needs_images with
    | false =>
      rw [hc] at hmem
      simp at hmem
    | true => rfl

/-- Witness for C8: an actor call present in a concrete run's trace forces
the classification to have returned true. -/
theorem C8_witness :
    should_search_images (llmConst "YES") "q" = .ok true :=
  (C8_strictly_sequential (llmConst "YES") (fetchConst [sampleRecord]) "q").2.1
    "q" 10 (by decide)

/-- Claim C9: an `UpstreamError` raised by either collaborator at any step
(classification, search, or composition) propagates uncaught out of
`process_query`: the run's result is that very error, never a partial
`ProcessedResult`. -/
theorem C9_upstream_error_propagates
    (llm : String → Except UpstreamError String)
    (fetch : String → Nat → Except UpstreamError (List ImageSearchResult))
    (query : String) (e : UpstreamError) :
    (llm (classification_prompt query) = .error e →
      process_query llm fetch query = .error e) ∧
    (should_search_images llm query = .ok true → fetch query 10 = .error e →
      process_query llm fetch query = .error e) ∧
    (∀ d, should_search_images llm query = .ok true →
      search_images fetch query 10 = .ok d →
      llm (build_prompt query (some d)) = .error e →
      process_query llm fetch query = .error e) ∧
    (should_search_images llm query = .ok false →
      llm (build_prompt query (some emptyRecord)) = .error e →
      process_query llm fetch query = .error e) := by
  refine ⟨fun h => process_query_classify_error (should_search_images_error h),
    fun hc hf => process_query_search_error hc ?_,
    fun d hc hs ht => process_query_compose_error hc hs ht,
    fun hc ht => process_query_false_error hc ht⟩
  unfold search_images
  rw [hf]

/-- Witness for C9: a failing text-completion service makes a concrete
`process_query` run return its error. -/
theorem C9_witness :
    process_query (llmErr { msg := "boom" }) (fetchConst []) "q" =
      .error { msg := "boom" } :=
  (C9_upstream_error_propagates (llmErr { msg := "boom" }) (fetchConst [])
    "q" { msg := "boom" }).1 rfl

/-- Claim C10: when classification returns true and the search step returns
a non-empty record whose `images` key is absent or empty, `process_query`
returns `image_aware_response = true` with an empty `images` list, and the
compose step used the plain non-image prompt. -/
theorem C10_image_aware_without_image_context
    (llm : String → Except UpstreamError String)
    (fetch : String → Nat → Except UpstreamError (List ImageSearchResult))
    (query t : String) (d : ImageSearchResult)
    (hc : should_search_images llm query = .ok true)
    (hs : search_images fetch query 10 = .ok d)
    (hne : d.isEmptyRecord = false)
    (hi : d.images = none ∨ d.images = some [])
    (ht : llm ("Answer this query comprehensively: \x27" ++ query ++ "\x27") =
      .ok t) :
    build_prompt query (some d) =
      "Answer this query comprehensively: \x27" ++ query ++ "\x27" ∧
    process_query llm fetch query =
      .ok { query := query, text_response := t, images := [],
            total_images := d.total_results.getD 0,
            perspectives := d.search_perspectives.getD [],
            image_aware_response := true } := by
  have himg : (d.images.getD []).isEmpty = true := by
    rcases hi with h | h <;> simp [h]
  have hplain : build_prompt query (some d) = plain_prompt query := by
    simp [build_prompt, himg]
  refine ⟨hplain, ?_⟩
  have ht' : llm (build_prompt query (some d)) = .ok t := by
    rw [hplain]
    exact ht
  rw [process_query_true_ok hc hs ht']
  rcases hi with h | h <;> simp [h, hne]

/-- Witness for C10 on a record whose only key is `agent_response`. -/
theorem C10_witness :
    build_prompt "q" (some agentOnlyRecord) =
      "Answer this query comprehensively: \x27" ++ "q" ++ "\x27" ∧
    process_query (llmConst "YES") (fetchConst [agentOnlyRecord]) "q" =
      .ok { query := "q", text_response := "YES", images := [],
            total_images := 0, perspectives := [],
            image_aware_response := true } :=
  C10_image_aware_without_image_context (llmConst "YES")
    (fetchConst [agentOnlyRecord]) "q" "YES" agentOnlyRecord
    (by rw [show should_search_images (llmConst "YES") "q"
          = .ok (pyContains (pyUpper "YES") "YES") from rfl]
        simp only [Except.ok.injEq]
        decide)
    rfl rfl (Or.inl rfl) rfl

end ImageFinder
